import Mathlib

/-!
Verification development for the SureROI calculation engine.

The numeric core is embedded shallowly over the rationals (JS numbers are
treated as exact arithmetic). The month loop of `computeScenario`
(src/src/calculations/engine.ts) is embedded as a structurally recursive
state transformer `stateAfter`, whose state carries exactly the mutable
variables of the loop. The portfolio rescaler
(src/src/hooks/usePortfolioCalculations.ts) lives in the `UnitModel`
namespace together with the per-unit savings model from types/index.ts.
-/

set_option maxRecDepth 4000

/-- Constant from engine.ts: `const WEEKS_PER_MONTH = 4.33`. -/
def WEEKS_PER_MONTH : ℚ := 433 / 100

/-- The status-quo process description (engine.ts `CurrentStateInputs`). -/
structure CurrentStateInputs where
  workers : ℚ
  hourlyRate : ℚ
  hoursPerWeek : ℚ
  errorRate : ℚ
  monthlyOperationalCosts : ℚ
deriving DecidableEq, Inhabited

/-- Investment cost block (shared by both model generations).
`toolLifespanMonths` is a whole number of months (0 disables redeployment). -/
structure InvestmentInputs where
  assemblyCost : ℚ
  designCost : ℚ
  controlsCost : ℚ
  monthlyRecurringCost : ℚ
  trainingCost : ℚ
  deploymentCost : ℚ
  toolLifespanMonths : ℕ
deriving DecidableEq, Inhabited

/-- Efficiency gains of the proposed tool (engine.ts `EfficiencyInputs`). -/
structure EfficiencyInputs where
  timeSavings : ℚ
  errorReduction : ℚ
  utilizationPercent : ℚ
  adoptionRampMonths : ℚ
  additionalMonthlyRevenue : ℚ
deriving DecidableEq, Inhabited

/-- Display-only strategic flags; no numeric effect. -/
structure QualitativeFlags where
  safetyCritical : Bool
  qualityCritical : Bool
  operationsCritical : Bool
deriving DecidableEq, Inhabited

/-- One scenario, as consumed by the engine in src/src/calculations/engine.ts. -/
structure ScenarioInputs where
  id : String
  name : String
  color : String
  currentState : CurrentStateInputs
  investment : InvestmentInputs
  efficiency : EfficiencyInputs
  qualitative : QualitativeFlags
  costBreakdownLocked : Bool
deriving DecidableEq, Inhabited

/-- adoption.ts `linearAdoption`: instant adoption for a non-positive ramp,
otherwise `min(1, month / adoptionPeriod)`. -/
def linearAdoption (month adoptionPeriod : ℚ) : ℚ :=
  if adoptionPeriod ≤ 0 then 1 else min 1 (month / adoptionPeriod)

/-- engine.ts `calcMonthlyCurrentLabor`. -/
def calcMonthlyCurrentLabor (workers hourlyRate hoursPerWeek : ℚ) : ℚ :=
  workers * hourlyRate * hoursPerWeek * WEEKS_PER_MONTH

/-- engine.ts `calcMonthlyReworkCost`. -/
def calcMonthlyReworkCost (monthlyLabor errorRate : ℚ) : ℚ :=
  monthlyLabor * errorRate

/-- engine.ts `calcTotalMonthlyCurrent`. -/
def calcTotalMonthlyCurrent (labor rework operational : ℚ) : ℚ :=
  labor + rework + operational

/-- engine.ts `calcNewMonthlyLabor`. -/
def calcNewMonthlyLabor (currentLabor timeSavings adoptionRate : ℚ) : ℚ :=
  currentLabor * (1 - timeSavings * adoptionRate)

/-- engine.ts `calcNewMonthlyRework`. -/
def calcNewMonthlyRework (currentRework errorReduction adoptionRate : ℚ) : ℚ :=
  currentRework * (1 - errorReduction * adoptionRate)

/-- engine.ts `calcNewMonthlyTotal`. -/
def calcNewMonthlyTotal (newLabor newRework operational monthlyRecurring : ℚ) : ℚ :=
  newLabor + newRework + operational + monthlyRecurring

/-- engine.ts `calcUpfrontCost`. -/
def calcUpfrontCost (investment : InvestmentInputs) : ℚ :=
  investment.assemblyCost + investment.designCost + investment.controlsCost

/-- engine.ts `calcRedeploymentCost`. -/
def calcRedeploymentCost (investment : InvestmentInputs) : ℚ :=
  investment.assemblyCost + investment.designCost + investment.controlsCost +
    investment.deploymentCost

/-- engine.ts `calcCumulativeInvestment`: base costs plus
`floor(month / toolLifespanMonths)` redeployments when a lifespan is set. -/
def calcCumulativeInvestment (investment : InvestmentInputs) (month : ℕ) : ℚ :=
  let upfront := calcUpfrontCost investment
  let base := upfront + investment.trainingCost + investment.deploymentCost +
    investment.monthlyRecurringCost * (month : ℚ)
  if 0 < investment.toolLifespanMonths then
    base + calcRedeploymentCost investment *
      ((month / investment.toolLifespanMonths : ℕ) : ℚ)
  else base

-- ── Values fixed before the month loop of computeScenario ────────────────

/-- Binding `sqState = baselineState ?? currentState` of computeScenario. -/
def sqStateOf (i : ScenarioInputs) (b : Option CurrentStateInputs) : CurrentStateInputs :=
  b.getD i.currentState

/-- Binding `sqLabor` of computeScenario. -/
def sqLaborOf (i : ScenarioInputs) (b : Option CurrentStateInputs) : ℚ :=
  calcMonthlyCurrentLabor (sqStateOf i b).workers (sqStateOf i b).hourlyRate
    (sqStateOf i b).hoursPerWeek

/-- Binding `sqRework` of computeScenario. -/
def sqReworkOf (i : ScenarioInputs) (b : Option CurrentStateInputs) : ℚ :=
  calcMonthlyReworkCost (sqLaborOf i b) (sqStateOf i b).errorRate

/-- Binding `sqTotal` of computeScenario. -/
def sqTotalOf (i : ScenarioInputs) (b : Option CurrentStateInputs) : ℚ :=
  calcTotalMonthlyCurrent (sqLaborOf i b) (sqReworkOf i b)
    (sqStateOf i b).monthlyOperationalCosts

/-- Binding `proposedLabor` of computeScenario (always own currentState). -/
def proposedLaborOf (i : ScenarioInputs) : ℚ :=
  calcMonthlyCurrentLabor i.currentState.workers i.currentState.hourlyRate
    i.currentState.hoursPerWeek

/-- Binding `proposedRework` of computeScenario. -/
def proposedReworkOf (i : ScenarioInputs) : ℚ :=
  calcMonthlyReworkCost (proposedLaborOf i) i.currentState.errorRate

-- ── Per-month quantities of the loop body ────────────────────────────────

/-- Value `adoptionRate` computed in the loop body at a given month. -/
def adoptionRateAt (i : ScenarioInputs) (month : ℕ) : ℚ :=
  linearAdoption (month : ℚ) i.efficiency.adoptionRampMonths

/-- Value `effectiveAdoption` in the loop body. -/
def effectiveAdoptionAt (i : ScenarioInputs) (month : ℕ) : ℚ :=
  adoptionRateAt i month * i.efficiency.utilizationPercent

/-- Value `newLabor` in the loop body. -/
def newLaborAt (i : ScenarioInputs) (month : ℕ) : ℚ :=
  calcNewMonthlyLabor (proposedLaborOf i) i.efficiency.timeSavings
    (effectiveAdoptionAt i month)

/-- Value `newRework` in the loop body. -/
def newReworkAt (i : ScenarioInputs) (month : ℕ) : ℚ :=
  calcNewMonthlyRework (proposedReworkOf i) i.efficiency.errorReduction
    (effectiveAdoptionAt i month)

/-- Value `newTotal` in the loop body. -/
def newTotalAt (i : ScenarioInputs) (month : ℕ) : ℚ :=
  calcNewMonthlyTotal (newLaborAt i month) (newReworkAt i month)
    i.currentState.monthlyOperationalCosts i.investment.monthlyRecurringCost

/-- Value `monthlySavings` in the loop body. -/
def monthlySavingsAt (i : ScenarioInputs) (b : Option CurrentStateInputs)
    (month : ℕ) : ℚ :=
  sqTotalOf i b - newTotalAt i month + i.efficiency.additionalMonthlyRevenue

/-- The redeployment charge added to `cumulativeNewTool` at the top of the
loop body: the guard is `toolLifespanMonths > 0 && month > 1 &&
(month - 1) % toolLifespanMonths === 0 && month <= analysisPeriod`. -/
def redeployChargeAt (investment : InvestmentInputs) (analysisPeriod month : ℕ) : ℚ :=
  if 0 < investment.toolLifespanMonths ∧ 1 < month ∧
      (month - 1) % investment.toolLifespanMonths = 0 ∧ month ≤ analysisPeriod
  then calcRedeploymentCost investment else 0

-- ── The month loop as a state machine ────────────────────────────────────

/-- One row of the monthly table pushed by the loop (engine.ts shape). -/
structure MonthlyBreakdown where
  month : ℕ
  adoptionRate : ℚ
  currentLabor : ℚ
  currentRework : ℚ
  currentTotal : ℚ
  newLabor : ℚ
  newRework : ℚ
  newTotal : ℚ
  monthlySavings : ℚ
  cumulativeStatusQuo : ℚ
  cumulativeNewTool : ℚ
  cumulativeInvestment : ℚ
  cumulativeSavings : ℚ
  netPosition : ℚ
deriving DecidableEq, Inhabited

/-- The mutable variables of computeScenario's month loop. -/
structure SimState where
  cumulativeStatusQuo : ℚ
  cumulativeNewTool : ℚ
  cumulativeSavings : ℚ
  breakEvenMonth : Option ℕ
  rows : List MonthlyBreakdown
deriving DecidableEq, Inhabited

/-- State before month 1: `cumulativeNewTool` is seeded with
`upfrontCost + trainingCost + deploymentCost`. -/
def initState (i : ScenarioInputs) : SimState :=
  { cumulativeStatusQuo := 0
    cumulativeNewTool := calcUpfrontCost i.investment + i.investment.trainingCost +
      i.investment.deploymentCost
    cumulativeSavings := 0
    breakEvenMonth := none
    rows := [] }

/-- One iteration of the month loop of computeScenario. -/
def stepMonth (i : ScenarioInputs) (b : Option CurrentStateInputs)
    (analysisPeriod month : ℕ) (st : SimState) : SimState :=
  { cumulativeStatusQuo := st.cumulativeStatusQuo + sqTotalOf i b
    cumulativeNewTool := st.cumulativeNewTool +
      redeployChargeAt i.investment analysisPeriod month + newTotalAt i month
    cumulativeSavings := st.cumulativeSavings + monthlySavingsAt i b month
    breakEvenMonth :=
      if st.breakEvenMonth = none ∧
          0 < (st.cumulativeStatusQuo + sqTotalOf i b) -
            (st.cumulativeNewTool + redeployChargeAt i.investment analysisPeriod month +
              newTotalAt i month)
      then some month else st.breakEvenMonth
    rows := st.rows ++
      [{ month := month
         adoptionRate := adoptionRateAt i month
         currentLabor := sqLaborOf i b
         currentRework := sqReworkOf i b
         currentTotal := sqTotalOf i b
         newLabor := newLaborAt i month
         newRework := newReworkAt i month
         newTotal := newTotalAt i month
         monthlySavings := monthlySavingsAt i b month
         cumulativeStatusQuo := st.cumulativeStatusQuo + sqTotalOf i b
         cumulativeNewTool := st.cumulativeNewTool +
           redeployChargeAt i.investment analysisPeriod month + newTotalAt i month
         cumulativeInvestment := calcCumulativeInvestment i.investment month
         cumulativeSavings := st.cumulativeSavings + monthlySavingsAt i b month
         netPosition := (st.cumulativeStatusQuo + sqTotalOf i b) -
           (st.cumulativeNewTool + redeployChargeAt i.investment analysisPeriod month +
             newTotalAt i month) }] }

/-- The loop state after months `1 .. m` have been processed
(`analysisPeriod` is the loop bound used by the redeployment guard). -/
def stateAfter (i : ScenarioInputs) (b : Option CurrentStateInputs)
    (analysisPeriod : ℕ) : ℕ → SimState
  | 0 => initState i
  | m + 1 => stepMonth i b analysisPeriod (m + 1) (stateAfter i b analysisPeriod m)

/-- The engine's result record (engine.ts shape). -/
structure ScenarioResults where
  scenarioId : String
  scenarioName : String
  color : String
  qualitative : QualitativeFlags
  monthlyBreakdowns : List MonthlyBreakdown
  breakEvenMonth : Option ℕ
  year1ROI : ℚ
  threeYearNetSavings : ℚ
  totalInvestment : ℚ
  monthlySavingsAtFullAdoption : ℚ
deriving DecidableEq, Inhabited

/-- engine.ts `computeScenario`: run the month loop, then derive the KPIs.
`year1ROI` is nonzero only when the month-12 row exists and
`calcCumulativeInvestment` at month `min 12 analysisPeriod` is positive. -/
def computeScenario (inputs : ScenarioInputs) (analysisPeriod : ℕ)
    (baselineState : Option CurrentStateInputs) : ScenarioResults :=
  let st := stateAfter inputs baselineState analysisPeriod analysisPeriod
  let monthlyBreakdowns := st.rows
  let totalInvestment := calcCumulativeInvestment inputs.investment analysisPeriod
  let threeYearNetSavings := (monthlyBreakdowns.getLast?).elim 0 (fun r => r.netPosition)
  let year1Investment :=
    calcCumulativeInvestment inputs.investment (min 12 analysisPeriod)
  let year1ROI :=
    match monthlyBreakdowns[11]? with
    | some row => if 0 < year1Investment
        then row.netPosition / year1Investment * 100 else 0
    | none => 0
  let fullAdoptionLabor := calcNewMonthlyLabor (proposedLaborOf inputs)
    inputs.efficiency.timeSavings inputs.efficiency.utilizationPercent
  let fullAdoptionRework := calcNewMonthlyRework (proposedReworkOf inputs)
    inputs.efficiency.errorReduction inputs.efficiency.utilizationPercent
  let fullAdoptionTotal := calcNewMonthlyTotal fullAdoptionLabor fullAdoptionRework
    inputs.currentState.monthlyOperationalCosts inputs.investment.monthlyRecurringCost
  { scenarioId := inputs.id
    scenarioName := inputs.name
    color := inputs.color
    qualitative := inputs.qualitative
    monthlyBreakdowns := monthlyBreakdowns
    breakEvenMonth := st.breakEvenMonth
    year1ROI := year1ROI
    threeYearNetSavings := threeYearNetSavings
    totalInvestment := totalInvestment
    monthlySavingsAtFullAdoption :=
      sqTotalOf inputs baselineState - fullAdoptionTotal +
        inputs.efficiency.additionalMonthlyRevenue }


-- ── Helper definitions for the loop analysis ─────────────────────────────

/-- The amount `cumulativeNewTool` is seeded with before month 1. -/
def seedOf (inv : InvestmentInputs) : ℚ :=
  calcUpfrontCost inv + inv.trainingCost + inv.deploymentCost

/-- Sum of `newTotal` over months `1 .. m`. -/
def sumNewTotalAt (i : ScenarioInputs) : ℕ → ℚ
  | 0 => 0
  | m + 1 => sumNewTotalAt i m + newTotalAt i (m + 1)

/-- Sum of the loop's redeployment charges over months `1 .. m`. -/
def chargeSumAt (inv : InvestmentInputs) (N : ℕ) : ℕ → ℚ
  | 0 => 0
  | m + 1 => chargeSumAt inv N m + redeployChargeAt inv N (m + 1)

/-- The row of `netPosition` after month `m`: the engine's
`cumulativeStatusQuo − cumulativeNewTool`. -/
def netPosAt (i : ScenarioInputs) (b : Option CurrentStateInputs) (N m : ℕ) : ℚ :=
  (stateAfter i b N m).cumulativeStatusQuo - (stateAfter i b N m).cumulativeNewTool

/-- The row pushed by the loop at month `m`. -/
def rowAt (i : ScenarioInputs) (b : Option CurrentStateInputs) (N m : ℕ) :
    MonthlyBreakdown :=
  { month := m
    adoptionRate := adoptionRateAt i m
    currentLabor := sqLaborOf i b
    currentRework := sqReworkOf i b
    currentTotal := sqTotalOf i b
    newLabor := newLaborAt i m
    newRework := newReworkAt i m
    newTotal := newTotalAt i m
    monthlySavings := monthlySavingsAt i b m
    cumulativeStatusQuo := (stateAfter i b N m).cumulativeStatusQuo
    cumulativeNewTool := (stateAfter i b N m).cumulativeNewTool
    cumulativeInvestment := calcCumulativeInvestment i.investment m
    cumulativeSavings := (stateAfter i b N m).cumulativeSavings
    netPosition := netPosAt i b N m }

/-- The first month in `1 .. m` with positive `netPosition`. -/
def firstBreakEven (i : ScenarioInputs) (b : Option CurrentStateInputs)
    (N : ℕ) : ℕ → Option ℕ
  | 0 => none
  | m + 1 =>
    match firstBreakEven i b N m with
    | some k => some k
    | none => if 0 < netPosAt i b N (m + 1) then some (m + 1) else none


-- ── Formula/Explain layer ────────────────────────────────────────────────

/-- One "Show the Math" card (types/index.ts `FormulaDisplay`). -/
structure FormulaDisplay where
  id : String
  label : String
  formula : String
  substituted : String
  result : String
deriving DecidableEq, Inhabited

/-- engine.ts `getFormulaDisplays`. The currency and percent formatters are
`Intl.NumberFormat`-based (constants/formatting.ts) and therefore external;
they are taken as parameters `fc` and `fp`. -/
def getFormulaDisplays (fc fp : ℚ → String) (inputs : ScenarioInputs)
    (analysisPeriod : ℕ) (baselineState : Option CurrentStateInputs)
    (costLocked : Bool) : List FormulaDisplay :=
  let sqState := sqStateOf inputs baselineState
  let sqLabor := sqLaborOf inputs baselineState
  let sqRework := sqReworkOf inputs baselineState
  let sqTotal := sqTotalOf inputs baselineState
  let proposedLabor := proposedLaborOf inputs
  let proposedRework := proposedReworkOf inputs
  let upfrontCost := calcUpfrontCost inputs.investment
  let utilization := inputs.efficiency.utilizationPercent
  let fullAdoptionLabor := calcNewMonthlyLabor proposedLabor
    inputs.efficiency.timeSavings utilization
  let fullAdoptionRework := calcNewMonthlyRework proposedRework
    inputs.efficiency.errorReduction utilization
  let fullAdoptionTotal := calcNewMonthlyTotal fullAdoptionLabor fullAdoptionRework
    inputs.currentState.monthlyOperationalCosts inputs.investment.monthlyRecurringCost
  let monthlySavings := sqTotal - fullAdoptionTotal +
    inputs.efficiency.additionalMonthlyRevenue
  let oneTimeInvestment := upfrontCost + inputs.investment.trainingCost +
    inputs.investment.deploymentCost
  let baseCards : List FormulaDisplay :=
    [ { id := "monthly-labor"
        label := "Monthly Baseline Labor"
        formula := "workers x hourly_rate x hours/week x 4.33"
        substituted := toString sqState.workers ++ " x " ++ fc sqState.hourlyRate ++
          " x " ++ toString sqState.hoursPerWeek ++ " x 4.33"
        result := fc sqLabor }
    , { id := "monthly-rework"
        label := "Monthly Baseline Rework"
        formula := "monthly_labor x error_rate"
        substituted := fc sqLabor ++ " x " ++ fp sqState.errorRate
        result := fc sqRework }
    , { id := "total-monthly-current"
        label := "Total Monthly Baseline Cost"
        formula := "labor + rework + operational_costs"
        substituted := fc sqLabor ++ " + " ++ fc sqRework ++ " + " ++
          fc sqState.monthlyOperationalCosts
        result := fc sqTotal } ]
  let proposedCards : List FormulaDisplay :=
    match baselineState with
    | some _ =>
      [ { id := "proposed-labor"
          label := "Proposed Monthly Labor"
          formula := "workers x hourly_rate x hours/week x 4.33"
          substituted := toString inputs.currentState.workers ++ " x " ++
            fc inputs.currentState.hourlyRate ++ " x " ++
            toString inputs.currentState.hoursPerWeek ++ " x 4.33"
          result := fc proposedLabor }
      , { id := "proposed-rework"
          label := "Proposed Monthly Rework"
          formula := "proposed_labor x error_rate"
          substituted := fc proposedLabor ++ " x " ++ fp inputs.currentState.errorRate
          result := fc proposedRework } ]
    | none => []
  let mainCards : List FormulaDisplay :=
    [ { id := "new-monthly-labor"
        label := "New Monthly Labor (Full Adoption)"
        formula := "proposed_labor x (1 - time_savings x utilization)"
        substituted := fc proposedLabor ++ " x (1 - " ++
          fp inputs.efficiency.timeSavings ++ " x " ++ fp utilization ++ ")"
        result := fc fullAdoptionLabor }
    , { id := "new-monthly-rework"
        label := "New Monthly Rework (Full Adoption)"
        formula := "proposed_rework x (1 - error_reduction x utilization)"
        substituted := fc proposedRework ++ " x (1 - " ++
          fp inputs.efficiency.errorReduction ++ " x " ++ fp utilization ++ ")"
        result := fc fullAdoptionRework }
    , { id := "new-monthly-total"
        label := "New Monthly Total (Full Adoption)"
        formula := "new_labor + new_rework + operational + monthly_recurring"
        substituted := fc fullAdoptionLabor ++ " + " ++ fc fullAdoptionRework ++
          " + " ++ fc inputs.currentState.monthlyOperationalCosts ++ " + " ++
          fc inputs.investment.monthlyRecurringCost
        result := fc fullAdoptionTotal }
    , { id := "monthly-savings"
        label := "Monthly Savings (Full Adoption)"
        formula := "baseline_total - new_total + additional_revenue"
        substituted := fc sqTotal ++ " - " ++ fc fullAdoptionTotal ++ " + " ++
          fc inputs.efficiency.additionalMonthlyRevenue
        result := fc monthlySavings }
    , { id := "one-time-investment"
        label := "One-Time Investment"
        formula := "assembly + design + controls + training + deployment"
        substituted :=
          if costLocked then
            "*** + *** + *** + " ++ fc inputs.investment.trainingCost ++ " + " ++
              fc inputs.investment.deploymentCost
          else
            fc inputs.investment.assemblyCost ++ " + " ++
              fc inputs.investment.designCost ++ " + " ++
              fc inputs.investment.controlsCost ++ " + " ++
              fc inputs.investment.trainingCost ++ " + " ++
              fc inputs.investment.deploymentCost
        result := fc oneTimeInvestment } ]
  let redeployCards : List FormulaDisplay :=
    if 0 < inputs.investment.toolLifespanMonths then
      [ { id := "redeployment"
          label := "Redeployment Cost"
          formula := "(assembly + design + controls + deployment) x floor(period / lifespan)"
          substituted :=
            if costLocked then
              "*** x floor(" ++ toString analysisPeriod ++ " / " ++
                toString inputs.investment.toolLifespanMonths ++ ")"
            else
              fc (calcRedeploymentCost inputs.investment) ++ " x floor(" ++
                toString analysisPeriod ++ " / " ++
                toString inputs.investment.toolLifespanMonths ++ ")"
          result :=
            toString (analysisPeriod / inputs.investment.toolLifespanMonths) ++
              " cycle(s) = " ++
              fc (calcRedeploymentCost inputs.investment *
                ((analysisPeriod / inputs.investment.toolLifespanMonths : ℕ) : ℚ)) } ]
    else []
  let tailCards : List FormulaDisplay :=
    [ { id := "adoption-rate"
        label := "Adoption Rate (month t)"
        formula := "min(1, t / adoption_period)"
        substituted := "min(1, t / " ++
          toString inputs.efficiency.adoptionRampMonths ++ ")"
        result := "Linear ramp over " ++
          toString inputs.efficiency.adoptionRampMonths ++ " months" }
    , { id := "roi-formula"
        label := "ROI %"
        formula := "(net_position / cumulative_investment) x 100"
        substituted :=
          "(cumulative_savings - cumulative_investment) / cumulative_investment x 100"
        result := "Calculated per month" } ]
  baseCards ++ proposedCards ++ mainCards ++ redeployCards ++ tailCards

/-- Agreement of two formula cards up to cost masking: all display fields
except `substituted` coincide, and `substituted` may differ only on the
one-time-investment and redeployment cards. -/
def formulaAgrees (a b : FormulaDisplay) : Prop :=
  a.id = b.id ∧ a.label = b.label ∧ a.formula = b.formula ∧ a.result = b.result ∧
    (a.substituted ≠ b.substituted →
      a.id = "one-time-investment" ∨ a.id = "redeployment")

-- ── Per-unit model and portfolio rescaler ────────────────────────────────

namespace UnitModel

/-- types/index.ts `SavingsMode`. -/
inductive SavingsMode where
  | direct
  | timeBased
deriving DecidableEq, Inhabited

/-- types/index.ts `SavingsInputs` (per-unit savings model). -/
structure SavingsInputs where
  mode : SavingsMode
  unitName : String
  referenceUnits : ℚ
  directSavingsPerUnit : ℚ
  currentCrewSize : ℚ
  proposedCrewSize : ℚ
  currentTimePerUnit : ℚ
  proposedTimePerUnit : ℚ
  hourlyRate : ℚ
  additionalSavingsPerUnit : ℚ
  utilizationPercent : ℚ
  adoptionRampMonths : ℚ
deriving DecidableEq, Inhabited

/-- types/index.ts `ScenarioInputs` of the per-unit model generation. -/
structure ScenarioInputs where
  id : String
  name : String
  color : String
  savings : SavingsInputs
  investment : InvestmentInputs
  qualitative : QualitativeFlags
  costBreakdownLocked : Bool
deriving DecidableEq, Inhabited

/-- Modelled from the spec: the `computeSavingsPerUnit` implementation of
the per-unit model is absent from src/ (types/index.ts declares the model
and usePortfolioCalculations.ts calls its engine); spec section 4.2 gives
the derivation embedded here: direct mode uses the flat rate, time-based
mode compares crew-time costs when `currentTimePerUnit > 0`, and the final
rate is `max(0, laborSavings + additionalSavingsPerUnit)`. -/
def computeSavingsPerUnit (savings : SavingsInputs) : ℚ :=
  let laborSavings :=
    match savings.mode with
    | SavingsMode.direct => savings.directSavingsPerUnit
    | SavingsMode.timeBased =>
      if 0 < savings.currentTimePerUnit then
        savings.currentCrewSize * savings.currentTimePerUnit / 60 * savings.hourlyRate -
          savings.proposedCrewSize * savings.proposedTimePerUnit / 60 * savings.hourlyRate
      else 0
  max 0 (laborSavings + savings.additionalSavingsPerUnit)

/-- types/index.ts `MonthlyBreakdown` of the per-unit model generation. -/
structure MonthlyBreakdown where
  month : ℕ
  adoptionRate : ℚ
  monthlySavings : ℚ
  monthlyInvestmentCost : ℚ
  cumulativeSavings : ℚ
  cumulativeInvestment : ℚ
  netPosition : ℚ
deriving DecidableEq, Inhabited

/-- types/index.ts `ScenarioResults` of the per-unit model generation. -/
structure ScenarioResults where
  scenarioId : String
  scenarioName : String
  color : String
  qualitative : QualitativeFlags
  monthlyBreakdowns : List MonthlyBreakdown
  breakEvenMonth : Option ℕ
  year1ROI : ℚ
  threeYearNetSavings : ℚ
  totalInvestment : ℚ
  savingsPerUnit : ℚ
  monthlySavingsAtFullAdoption : ℚ
deriving DecidableEq, Inhabited

/-- Mutable loop variables of the per-unit simulation. -/
structure SimState where
  cumulativeSavings : ℚ
  cumulativeInvestment : ℚ
  breakEvenMonth : Option ℕ
  rows : List MonthlyBreakdown
deriving DecidableEq, Inhabited

/-- Modelled from the spec: section 4.3 seeds cumulative investment with
`upfront + training + deployment` before month 1. -/
def initState (s : ScenarioInputs) : SimState :=
  { cumulativeSavings := 0
    cumulativeInvestment := calcUpfrontCost s.investment +
      s.investment.trainingCost + s.investment.deploymentCost
    breakEvenMonth := none
    rows := [] }

/-- Modelled from the spec: one iteration of the section 4.3 loop — the
redeployment guard of step 1, linear adoption scaled by utilization,
monthly savings `perUnitRate * max(1, referenceUnits) * effectiveAdoption`,
monthly investment cost `recurring + redeployment`, running sums, net
position, and first-positive break-even capture. -/
def stepMonth (s : ScenarioInputs) (analysisPeriod month : ℕ) (st : SimState) : SimState :=
  let rate := computeSavingsPerUnit s.savings
  let units := max 1 s.savings.referenceUnits
  let charge := redeployChargeAt s.investment analysisPeriod month
  let adoption := linearAdoption (month : ℚ) s.savings.adoptionRampMonths
  let effectiveAdoption := adoption * s.savings.utilizationPercent
  let monthlySavings := rate * units * effectiveAdoption
  let monthlyInvestmentCost := s.investment.monthlyRecurringCost + charge
  { cumulativeSavings := st.cumulativeSavings + monthlySavings
    cumulativeInvestment := st.cumulativeInvestment + monthlyInvestmentCost
    breakEvenMonth :=
      if st.breakEvenMonth = none ∧
          0 < (st.cumulativeSavings + monthlySavings) -
            (st.cumulativeInvestment + monthlyInvestmentCost)
      then some month else st.breakEvenMonth
    rows := st.rows ++
      [{ month := month
         adoptionRate := adoption
         monthlySavings := monthlySavings
         monthlyInvestmentCost := monthlyInvestmentCost
         cumulativeSavings := st.cumulativeSavings + monthlySavings
         cumulativeInvestment := st.cumulativeInvestment + monthlyInvestmentCost
         netPosition := (st.cumulativeSavings + monthlySavings) -
           (st.cumulativeInvestment + monthlyInvestmentCost) }] }

/-- Per-unit loop state after months `1 .. m`. -/
def stateAfter (s : ScenarioInputs) (analysisPeriod : ℕ) : ℕ → SimState
  | 0 => initState s
  | m + 1 => stepMonth s analysisPeriod (m + 1) (stateAfter s analysisPeriod m)

/-- Modelled from the spec: `computeScenario` of the per-unit model
(section 4.3) — run the loop, read `totalInvestment` and
`threeYearNetSavings` off the final cumulative figures, compute
`year1ROI` from month 12 (or the last available month) guarded to 0 on a
non-positive denominator, and the full-adoption steady-state figures. -/
def computeScenario (s : ScenarioInputs) (analysisPeriod : ℕ) : ScenarioResults :=
  let st := stateAfter s analysisPeriod analysisPeriod
  let rate := computeSavingsPerUnit s.savings
  let units := max 1 s.savings.referenceUnits
  let roiIdx := min 12 analysisPeriod
  let year1ROI :=
    match st.rows[roiIdx - 1]? with
    | some row =>
      if 0 < row.cumulativeInvestment then
        row.netPosition / row.cumulativeInvestment * 100
      else 0
    | none => 0
  { scenarioId := s.id
    scenarioName := s.name
    color := s.color
    qualitative := s.qualitative
    monthlyBreakdowns := st.rows
    breakEvenMonth := st.breakEvenMonth
    year1ROI := year1ROI
    threeYearNetSavings := (st.rows.getLast?).elim 0 (fun r => r.netPosition)
    totalInvestment := st.cumulativeInvestment
    savingsPerUnit := rate
    monthlySavingsAtFullAdoption := rate * units * s.savings.utilizationPercent }

/-- types/index.ts `PortfolioEntry`. -/
structure PortfolioEntry where
  id : String
  projectName : String
  scenarioName : String
  actualUnits : ℚ
  toolCount : ℚ
  excludeDesignControls : Bool
  excludeTraining : Bool
  hidden : Bool
  startMonth : String
  endMonth : String
  scenario : ScenarioInputs
  baselineSavings : SavingsInputs
  analysisPeriod : ℕ
  sourceFileName : String
deriving DecidableEq, Inhabited

/-- usePortfolioCalculations.ts `PortfolioEntryResult`. -/
structure PortfolioEntryResult where
  entry : PortfolioEntry
  results : ScenarioResults
  durationMonths : ℕ
  scaleFactor : ℚ
  scaledTotalSavings : ℚ
  scaledTotalValue : ℚ
  scaledTotalInvestment : ℚ
  hasOvertime : Bool
  overtimePremium : ℚ
deriving DecidableEq, Inhabited

/-- The investment block built by usePortfolioCalculations.ts before the
re-simulation: exclusions zero design+controls and training, then the
per-tool cost fields (assembly, training, deployment, monthly recurring)
are multiplied by `toolCount`; design and controls are never multiplied. -/
def modifiedInvestment (entry : PortfolioEntry) : InvestmentInputs :=
  let inv0 := entry.scenario.investment
  let inv1 :=
    if entry.excludeDesignControls then
      { inv0 with designCost := 0, controlsCost := 0 }
    else inv0
  let inv2 :=
    if entry.excludeTraining then { inv1 with trainingCost := 0 } else inv1
  { inv2 with
    assemblyCost := inv2.assemblyCost * entry.toolCount
    trainingCost := inv2.trainingCost * entry.toolCount
    deploymentCost := inv2.deploymentCost * entry.toolCount
    monthlyRecurringCost := inv2.monthlyRecurringCost * entry.toolCount }

/-- usePortfolioCalculations.ts per-entry computation. The calendar helper
`monthsBetween` (utils/calendarUtils.ts, external to the core) is taken as
the parameter `monthsBetweenFn`. -/
def portfolioEntryResult (monthsBetweenFn : String → String → ℕ)
    (entry : PortfolioEntry) : PortfolioEntryResult :=
  let durationMonths :=
    min (monthsBetweenFn entry.startMonth entry.endMonth) entry.analysisPeriod
  let referenceUnits := max 1 entry.baselineSavings.referenceUnits
  let scaleFactor0 := entry.actualUnits / referenceUnits
  let ot : Bool × ℚ :=
    if entry.scenario.savings.mode = SavingsMode.timeBased ∧ 0 < durationMonths then
      let weeksInDuration := (durationMonths : ℚ) * (433 / 100)
      let currentCrewSize := entry.scenario.savings.currentCrewSize
      if 0 < currentCrewSize ∧ 0 < weeksInDuration then
        let weeklyHours := entry.actualUnits *
          entry.scenario.savings.currentTimePerUnit / 60 / weeksInDuration *
          (durationMonths : ℚ)
        let weeklyHoursPerWorker := weeklyHours / currentCrewSize / (durationMonths : ℚ)
        if 40 < weeklyHoursPerWorker then
          (true, (40 + (weeklyHoursPerWorker - 40) * (3 / 2)) / weeklyHoursPerWorker)
        else (false, 1)
      else (false, 1)
    else (false, 1)
  let scaleFactor := scaleFactor0 * ot.2
  let results := computeScenario
    { entry.scenario with investment := modifiedInvestment entry }
    entry.analysisPeriod
  let baseCumulativeSavings :=
    (results.monthlyBreakdowns.getLast?).elim 0 (fun r => r.cumulativeSavings)
  let scaledTotalSavings := baseCumulativeSavings * scaleFactor
  let scaledTotalInvestment := results.totalInvestment
  { entry := entry
    results := results
    durationMonths := durationMonths
    scaleFactor := scaleFactor
    scaledTotalSavings := scaledTotalSavings
    scaledTotalValue := scaledTotalSavings - scaledTotalInvestment
    scaledTotalInvestment := scaledTotalInvestment
    hasOvertime := ot.1
    overtimePremium := ot.2 }

end UnitModel

-- ── Concrete inputs used by the witnesses and counterexamples ────────────

/-- All-zero status-quo state. -/
def zeroState : CurrentStateInputs :=
  { workers := 0, hourlyRate := 0, hoursPerWeek := 0, errorRate := 0
    monthlyOperationalCosts := 0 }

/-- All-zero efficiency block. -/
def zeroEff : EfficiencyInputs :=
  { timeSavings := 0, errorReduction := 0, utilizationPercent := 0
    adoptionRampMonths := 0, additionalMonthlyRevenue := 0 }

/-- All-zero investment block. -/
def zeroInv : InvestmentInputs :=
  { assemblyCost := 0, designCost := 0, controlsCost := 0
    monthlyRecurringCost := 0, trainingCost := 0, deploymentCost := 0
    toolLifespanMonths := 0 }

/-- All-false qualitative flags. -/
def zeroFlags : QualitativeFlags :=
  { safetyCritical := false, qualityCritical := false, operationsCritical := false }

/-- Scenario whose only nonzero numeric input is a monthly recurring cost
of 1; every numeric field is non-negative. -/
def exRecurring : ScenarioInputs :=
  { id := "rec", name := "rec", color := "blue"
    currentState := zeroState
    investment := { zeroInv with monthlyRecurringCost := 1 }
    efficiency := zeroEff
    qualitative := zeroFlags
    costBreakdownLocked := false }

/-- Scenario with positive monthly savings (labor fully saved at instant
adoption) and a recurring cost of 1, used on short horizons. -/
def exShortHorizon : ScenarioInputs :=
  { id := "short", name := "short", color := "blue"
    currentState := { workers := 1, hourlyRate := 1, hoursPerWeek := 1
                      errorRate := 0, monthlyOperationalCosts := 0 }
    investment := { zeroInv with monthlyRecurringCost := 1 }
    efficiency := { timeSavings := 1, errorReduction := 0, utilizationPercent := 1
                    adoptionRampMonths := 0, additionalMonthlyRevenue := 0 }
    qualitative := zeroFlags
    costBreakdownLocked := false }

/-- Scenario with positive savings and zero investment: break-even at
month 1. -/
def exBreakEven : ScenarioInputs :=
  { id := "be", name := "be", color := "blue"
    currentState := { workers := 1, hourlyRate := 1, hoursPerWeek := 1
                      errorRate := 0, monthlyOperationalCosts := 0 }
    investment := zeroInv
    efficiency := { timeSavings := 1, errorReduction := 0, utilizationPercent := 1
                    adoptionRampMonths := 0, additionalMonthlyRevenue := 0 }
    qualitative := zeroFlags
    costBreakdownLocked := false }

/-- Scenario with a 12-month tool lifespan, assembly 1000 and deployment
500 (the spec example: a 1500 redeployment charge). -/
def exRedeploy : ScenarioInputs :=
  { id := "rd", name := "rd", color := "blue"
    currentState := zeroState
    investment := { zeroInv with
      assemblyCost := 1000
      deploymentCost := 500
      toolLifespanMonths := 12 }
    efficiency := zeroEff
    qualitative := zeroFlags
    costBreakdownLocked := false }

/-- Per-unit savings block with `referenceUnits = 0`, direct mode. -/
def exSavingsZeroUnits : UnitModel.SavingsInputs :=
  { mode := UnitModel.SavingsMode.direct, unitName := "unit"
    referenceUnits := 0, directSavingsPerUnit := 0
    currentCrewSize := 0, proposedCrewSize := 0
    currentTimePerUnit := 0, proposedTimePerUnit := 0
    hourlyRate := 0, additionalSavingsPerUnit := 0
    utilizationPercent := 1, adoptionRampMonths := 6 }

/-- Per-unit scenario wrapping `exSavingsZeroUnits` with zero investment. -/
def exUnitScenario : UnitModel.ScenarioInputs :=
  { id := "u", name := "u", color := "blue"
    savings := exSavingsZeroUnits
    investment := zeroInv
    qualitative := zeroFlags
    costBreakdownLocked := false }

/-- Portfolio entry whose `actualUnits` equals its `referenceUnits`, both
zero, with no overtime (direct mode). -/
def exEntryZeroUnits : UnitModel.PortfolioEntry :=
  { id := "e0", projectName := "p", scenarioName := "u"
    actualUnits := 0, toolCount := 1
    excludeDesignControls := false, excludeTraining := false, hidden := false
    startMonth := "2024-01", endMonth := "2024-12"
    scenario := exUnitScenario
    baselineSavings := exSavingsZeroUnits
    analysisPeriod := 1, sourceFileName := "f.json" }

/-- Portfolio entry with `toolCount = 3` and `excludeTraining = true` over
an investment block with every cost distinct. -/
def exEntryThreeTools : UnitModel.PortfolioEntry :=
  { id := "e3", projectName := "p", scenarioName := "u"
    actualUnits := 10, toolCount := 3
    excludeDesignControls := false, excludeTraining := true, hidden := false
    startMonth := "2024-01", endMonth := "2024-12"
    scenario := { exUnitScenario with
      investment := { assemblyCost := 100, designCost := 200, controlsCost := 300
                      monthlyRecurringCost := 40, trainingCost := 50
                      deploymentCost := 60, toolLifespanMonths := 0 } }
    baselineSavings := { exSavingsZeroUnits with referenceUnits := 10 }
    analysisPeriod := 2, sourceFileName := "f.json" }

/-- A fixed stand-in for the external `monthsBetween` calendar helper. -/
def exMonthsBetween : String → String → ℕ := fun _ _ => 12
-- ── Closed forms for the loop accumulators ───────────────────────────────

lemma cumSQ_eq (i : ScenarioInputs) (b : Option CurrentStateInputs) (N m : ℕ) :
    (stateAfter i b N m).cumulativeStatusQuo = (m : ℚ) * sqTotalOf i b := by
  induction m with
  | zero => simp [stateAfter, initState]
  | succ m ih =>
    simp only [stateAfter, stepMonth, ih]
    push_cast
    ring

lemma cumNT_eq (i : ScenarioInputs) (b : Option CurrentStateInputs) (N m : ℕ) :
    (stateAfter i b N m).cumulativeNewTool =
      seedOf i.investment + chargeSumAt i.investment N m + sumNewTotalAt i m := by
  induction m with
  | zero => simp [stateAfter, initState, chargeSumAt, sumNewTotalAt, seedOf]
  | succ m ih =>
    simp only [stateAfter, stepMonth, ih, chargeSumAt, sumNewTotalAt]
    ring

lemma cumSav_eq (i : ScenarioInputs) (b : Option CurrentStateInputs) (N m : ℕ) :
    (stateAfter i b N m).cumulativeSavings =
      (m : ℚ) * sqTotalOf i b - sumNewTotalAt i m +
        (m : ℚ) * i.efficiency.additionalMonthlyRevenue := by
  induction m with
  | zero => simp [stateAfter, initState, sumNewTotalAt]
  | succ m ih =>
    simp only [stateAfter, stepMonth, ih, sumNewTotalAt, monthlySavingsAt]
    push_cast
    ring

/-- Counting multiples: distance between `(m-1)/L` and `m/L`. -/
lemma div_pred_succ (L m : ℕ) :
    m / L = (m - 1) / L + (if 1 ≤ m ∧ m % L = 0 then 1 else 0) := by
  rcases Nat.eq_zero_or_pos m with h0 | hpos
  · subst h0; simp
  · have hm1 : m - 1 + 1 = m := by omega
    conv_lhs => rw [← hm1]
    rw [Nat.succ_div, hm1]
    congr 1
    have : (L ∣ m) ↔ (1 ≤ m ∧ m % L = 0) := by
      constructor
      · intro h; exact ⟨hpos, Nat.eq_zero_of_dvd_of_lt h |> fun _ => Nat.mod_eq_zero_of_dvd h⟩
      · rintro ⟨-, h⟩; exact Nat.dvd_of_mod_eq_zero h
    simp [this]

lemma chargeSumAt_of_zero (inv : InvestmentInputs) (N : ℕ)
    (hL : inv.toolLifespanMonths = 0) (m : ℕ) : chargeSumAt inv N m = 0 := by
  induction m with
  | zero => simp [chargeSumAt]
  | succ m ih => simp [chargeSumAt, ih, redeployChargeAt, hL]

lemma chargeSumAt_eq (inv : InvestmentInputs) (N : ℕ)
    (hL : 0 < inv.toolLifespanMonths) (m : ℕ) (hmN : m ≤ N) :
    chargeSumAt inv N m =
      calcRedeploymentCost inv * (((m - 1) / inv.toolLifespanMonths : ℕ) : ℚ) := by
  induction m with
  | zero => simp [chargeSumAt]
  | succ m ih =>
    have hmN2 : m ≤ N := by omega
    rw [chargeSumAt, ih hmN2, redeployChargeAt]
    have hcond : (0 < inv.toolLifespanMonths ∧ 1 < m + 1 ∧
        (m + 1 - 1) % inv.toolLifespanMonths = 0 ∧ m + 1 ≤ N) ↔
        (1 ≤ m ∧ m % inv.toolLifespanMonths = 0) := by
      constructor
      · rintro ⟨-, h1, h2, -⟩
        exact ⟨by omega, by simpa using h2⟩
      · rintro ⟨h1, h2⟩
        exact ⟨hL, by omega, by simpa using h2, hmN⟩
    rw [if_congr hcond rfl rfl]
    rw [show m + 1 - 1 = m from rfl,
      div_pred_succ inv.toolLifespanMonths m]
    by_cases h : 1 ≤ m ∧ m % inv.toolLifespanMonths = 0
    · simp only [if_pos h]
      push_cast
      ring
    · simp only [if_neg h]
      push_cast
      ring

lemma calcCumulativeInvestment_eq (inv : InvestmentInputs) (m : ℕ) :
    calcCumulativeInvestment inv m =
      seedOf inv + inv.monthlyRecurringCost * (m : ℚ) +
        (if 0 < inv.toolLifespanMonths then
          calcRedeploymentCost inv * ((m / inv.toolLifespanMonths : ℕ) : ℚ) else 0) := by
  by_cases h : 0 < inv.toolLifespanMonths
  · simp only [calcCumulativeInvestment, seedOf, if_pos h]
    try ring
  · simp only [calcCumulativeInvestment, seedOf, if_neg h]
    try ring

-- ── The emitted rows, break-even, and result projections ─────────────────

lemma rows_eq (i : ScenarioInputs) (b : Option CurrentStateInputs) (N m : ℕ) :
    (stateAfter i b N m).rows =
      (List.range m).map (fun k => rowAt i b N (k + 1)) := by
  induction m with
  | zero => simp [stateAfter, initState]
  | succ m ih =>
    rw [List.range_succ, List.map_append]
    show (stepMonth i b N (m + 1) (stateAfter i b N m)).rows = _
    rw [stepMonth]
    simp only [ih, List.map_cons, List.map_nil]
    congr 1

lemma breakEven_eq (i : ScenarioInputs) (b : Option CurrentStateInputs) (N m : ℕ) :
    (stateAfter i b N m).breakEvenMonth = firstBreakEven i b N m := by
  induction m with
  | zero => simp [stateAfter, initState, firstBreakEven]
  | succ m ih =>
    show (stepMonth i b N (m + 1) (stateAfter i b N m)).breakEvenMonth = _
    rw [stepMonth]
    simp only [ih, firstBreakEven]
    rcases h : firstBreakEven i b N m with - | k
    · simp only [h]
      have hnp : (stateAfter i b N m).cumulativeStatusQuo + sqTotalOf i b -
          ((stateAfter i b N m).cumulativeNewTool +
            redeployChargeAt i.investment N (m + 1) + newTotalAt i (m + 1)) =
          netPosAt i b N (m + 1) := rfl
      rw [hnp]
      simp
    · simp [h]

lemma firstBreakEven_none (i : ScenarioInputs) (b : Option CurrentStateInputs)
    (N : ℕ) : ∀ m, firstBreakEven i b N m = none →
      ∀ j, 1 ≤ j → j ≤ m → netPosAt i b N j ≤ 0 := by
  intro m
  induction m with
  | zero => intro _ j h1 h2; omega
  | succ m ih =>
    intro hnone j h1 h2
    rw [firstBreakEven] at hnone
    rcases h : firstBreakEven i b N m with - | k
    · rw [h] at hnone
      by_cases hpos : 0 < netPosAt i b N (m + 1)
      · simp [hpos] at hnone
      · rcases Nat.lt_or_ge j (m + 1) with hj | hj
        · exact ih h j h1 (by omega)
        · have : j = m + 1 := by omega
          subst this
          exact le_of_not_lt hpos
    · rw [h] at hnone
      simp at hnone

lemma firstBreakEven_some (i : ScenarioInputs) (b : Option CurrentStateInputs)
    (N : ℕ) : ∀ m k, firstBreakEven i b N m = some k →
      1 ≤ k ∧ k ≤ m ∧ 0 < netPosAt i b N k ∧
        ∀ j, 1 ≤ j → j < k → netPosAt i b N j ≤ 0 := by
  intro m
  induction m with
  | zero => intro k h; simp [firstBreakEven] at h
  | succ m ih =>
    intro k hk
    rw [firstBreakEven] at hk
    rcases h : firstBreakEven i b N m with - | k0
    · rw [h] at hk
      by_cases hpos : 0 < netPosAt i b N (m + 1)
      · simp only [if_pos hpos] at hk
        have hkm : k = m + 1 := by
          injection hk with hk
          omega
        subst hkm
        refine ⟨by omega, le_rfl, hpos, ?_⟩
        intro j h1 h2
        exact firstBreakEven_none i b N m h j h1 (by omega)
      · simp [hpos] at hk
    · rw [h] at hk
      injection hk with hk
      subst hk
      obtain ⟨a1, a2, a3, a4⟩ := ih k0 h
      exact ⟨a1, by omega, a3, a4⟩

@[simp] lemma computeScenario_monthlyBreakdowns (i : ScenarioInputs) (N : ℕ)
    (b : Option CurrentStateInputs) :
    (computeScenario i N b).monthlyBreakdowns = (stateAfter i b N N).rows := rfl

@[simp] lemma computeScenario_breakEvenMonth (i : ScenarioInputs) (N : ℕ)
    (b : Option CurrentStateInputs) :
    (computeScenario i N b).breakEvenMonth = (stateAfter i b N N).breakEvenMonth := rfl

lemma rows_length (i : ScenarioInputs) (b : Option CurrentStateInputs) (N : ℕ) :
    (stateAfter i b N N).rows.length = N := by
  rw [rows_eq]
  simp

lemma row_getD (i : ScenarioInputs) (b : Option CurrentStateInputs) (N k : ℕ)
    (h1 : 1 ≤ k) (h2 : k ≤ N) :
    (computeScenario i N b).monthlyBreakdowns.getD (k - 1) default = rowAt i b N k := by
  rw [computeScenario_monthlyBreakdowns, rows_eq]
  have hlt : k - 1 < ((List.range N).map (fun j => rowAt i b N (j + 1))).length := by
    simp
    omega
  rw [List.getD_eq_getElem _ _ hlt]
  simp only [List.getElem_map, List.getElem_range]
  congr 1
  omega

-- ── C8: linearAdoption ───────────────────────────────────────────────────

/-- C8: for every month ≥ 1, `linearAdoption` returns 1 when the ramp is
non-positive and `min(1, month / rampMonths)` otherwise; it is exactly 1 at
`month = rampMonths`, stays 1 for every later month, and is strictly
positive. -/
theorem c8_linearAdoption (month rampMonths : ℚ) (hm : 1 ≤ month) :
    (rampMonths ≤ 0 → linearAdoption month rampMonths = 1) ∧
    (0 < rampMonths → linearAdoption month rampMonths = min 1 (month / rampMonths)) ∧
    linearAdoption rampMonths rampMonths = 1 ∧
    (rampMonths ≤ month → linearAdoption month rampMonths = 1) ∧
    0 < linearAdoption month rampMonths := by
  refine ⟨?_, ?_, ?_, ?_, ?_⟩
  · intro h
    rw [linearAdoption, if_pos h]
  · intro h
    rw [linearAdoption, if_neg (not_le.mpr h)]
  · by_cases h : rampMonths ≤ 0
    · rw [linearAdoption, if_pos h]
    · push_neg at h
      rw [linearAdoption, if_neg (not_le.mpr h), div_self (ne_of_gt h)]
      exact min_self 1
  · intro hle
    by_cases h : rampMonths ≤ 0
    · rw [linearAdoption, if_pos h]
    · push_neg at h
      rw [linearAdoption, if_neg (not_le.mpr h)]
      exact min_eq_left ((one_le_div h).mpr hle)
  · by_cases h : rampMonths ≤ 0
    · rw [linearAdoption, if_pos h]
      exact one_pos
    · push_neg at h
      rw [linearAdoption, if_neg (not_le.mpr h)]
      exact lt_min one_pos (div_pos (lt_of_lt_of_le one_pos hm) h)

/-- C8 witness: the theorem at month 3, ramp 2 (and at month = ramp = 2). -/
theorem c8_linearAdoption_witness :
    (1 : ℚ) ≤ 3 ∧
    (((2 : ℚ) ≤ 0 → linearAdoption 3 2 = 1) ∧
      ((0 : ℚ) < 2 → linearAdoption 3 2 = min 1 (3 / 2)) ∧
      linearAdoption 2 2 = 1 ∧
      ((2 : ℚ) ≤ 3 → linearAdoption 3 2 = 1) ∧
      0 < linearAdoption 3 2) :=
  ⟨by norm_num, c8_linearAdoption 3 2 (by norm_num)⟩

-- ── C1: netPosition vs cumulativeSavings − cumulativeInvestment ──────────

/-- C1 counterexample: with a monthly recurring cost of 1 and all other
inputs zero, month 1 has `netPosition = −1` but
`cumulativeSavings − cumulativeInvestment = −2`. -/
theorem c1_counterexample :
    ((computeScenario exRecurring 1 none).monthlyBreakdowns.getD 0 default).netPosition ≠
      ((computeScenario exRecurring 1 none).monthlyBreakdowns.getD 0 default).cumulativeSavings -
        ((computeScenario exRecurring 1 none).monthlyBreakdowns.getD 0 default).cumulativeInvestment := by
  norm_num [computeScenario, stateAfter, stepMonth, initState, sqTotalOf, sqLaborOf,
    sqReworkOf, sqStateOf, proposedLaborOf, proposedReworkOf, newTotalAt, newLaborAt,
    newReworkAt, monthlySavingsAt, adoptionRateAt, effectiveAdoptionAt, linearAdoption,
    calcMonthlyCurrentLabor, calcMonthlyReworkCost, calcTotalMonthlyCurrent,
    calcNewMonthlyLabor, calcNewMonthlyRework, calcNewMonthlyTotal, calcUpfrontCost,
    calcRedeploymentCost, calcCumulativeInvestment, redeployChargeAt, WEEKS_PER_MONTH,
    exRecurring, zeroInv, zeroState, zeroEff, zeroFlags]

/-- C1 (amended): every row of `computeScenario` satisfies
`netPosition = cumulativeSavings − cumulativeInvestment
  + month · (monthlyRecurringCost − additionalMonthlyRevenue)
  + redeploymentCost · (⌊month/L⌋ − ⌊(month−1)/L⌋)` (last term only when
`toolLifespanMonths = L > 0`); equality with
`cumulativeSavings − cumulativeInvestment` therefore holds only when the
correction terms vanish. -/
theorem c1_netPosition_decomposition (i : ScenarioInputs)
    (b : Option CurrentStateInputs) (N m : ℕ) (h1 : 1 ≤ m) (h2 : m ≤ N) :
    ((computeScenario i N b).monthlyBreakdowns.getD (m - 1) default).netPosition =
      ((computeScenario i N b).monthlyBreakdowns.getD (m - 1) default).cumulativeSavings -
        ((computeScenario i N b).monthlyBreakdowns.getD (m - 1) default).cumulativeInvestment +
        (m : ℚ) * (i.investment.monthlyRecurringCost -
          i.efficiency.additionalMonthlyRevenue) +
        (if 0 < i.investment.toolLifespanMonths then
          calcRedeploymentCost i.investment *
            (((m / i.investment.toolLifespanMonths : ℕ) : ℚ) -
              (((m - 1) / i.investment.toolLifespanMonths : ℕ) : ℚ))
         else 0) := by
  rw [row_getD i b N m h1 h2]
  show netPosAt i b N m = (stateAfter i b N m).cumulativeSavings -
    calcCumulativeInvestment i.investment m + _ + _
  rw [netPosAt, cumSQ_eq, cumNT_eq, cumSav_eq, calcCumulativeInvestment_eq]
  by_cases hL : 0 < i.investment.toolLifespanMonths
  · rw [chargeSumAt_eq i.investment N hL m h2, if_pos hL, if_pos hL]
    ring
  · rw [chargeSumAt_of_zero i.investment N (by omega) m, if_neg hL, if_neg hL]
    ring

/-- C1 witness: the amended decomposition evaluated at `exRecurring`,
month 1 of a 1-month horizon. -/
theorem c1_witness :
    1 ≤ 1 ∧ 1 ≤ 1 ∧
    ((computeScenario exRecurring 1 none).monthlyBreakdowns.getD (1 - 1) default).netPosition =
      ((computeScenario exRecurring 1 none).monthlyBreakdowns.getD (1 - 1) default).cumulativeSavings -
        ((computeScenario exRecurring 1 none).monthlyBreakdowns.getD (1 - 1) default).cumulativeInvestment +
        ((1 : ℕ) : ℚ) * (exRecurring.investment.monthlyRecurringCost -
          exRecurring.efficiency.additionalMonthlyRevenue) +
        (if 0 < exRecurring.investment.toolLifespanMonths then
          calcRedeploymentCost exRecurring.investment *
            (((1 / exRecurring.investment.toolLifespanMonths : ℕ) : ℚ) -
              (((1 - 1 : ℕ) / exRecurring.investment.toolLifespanMonths : ℕ) : ℚ))
         else 0) :=
  ⟨le_rfl, le_rfl, c1_netPosition_decomposition exRecurring none 1 1 le_rfl le_rfl⟩

-- ── C2: break-even capture ───────────────────────────────────────────────

/-- C2: `breakEvenMonth` is the first month whose row `netPosition` is
strictly positive and is never overwritten: when it is `some k`, month `k`
has positive `netPosition` and every earlier month is ≤ 0; when it is
`none`, every month of the horizon is ≤ 0. -/
theorem c2_breakEven_first (i : ScenarioInputs) (N : ℕ)
    (b : Option CurrentStateInputs) :
    (∀ k, (computeScenario i N b).breakEvenMonth = some k →
      1 ≤ k ∧ k ≤ N ∧
      0 < ((computeScenario i N b).monthlyBreakdowns.getD (k - 1) default).netPosition ∧
      ∀ j, 1 ≤ j → j < k →
        ((computeScenario i N b).monthlyBreakdowns.getD (j - 1) default).netPosition ≤ 0) ∧
    ((computeScenario i N b).breakEvenMonth = none →
      ∀ j, 1 ≤ j → j ≤ N →
        ((computeScenario i N b).monthlyBreakdowns.getD (j - 1) default).netPosition ≤ 0) := by
  constructor
  · intro k hk
    rw [computeScenario_breakEvenMonth, breakEven_eq] at hk
    obtain ⟨a1, a2, a3, a4⟩ := firstBreakEven_some i b N N k hk
    refine ⟨a1, a2, ?_, ?_⟩
    · rw [row_getD i b N k a1 a2]
      exact a3
    · intro j h1 h2
      rw [row_getD i b N j h1 (by omega)]
      exact a4 j h1 h2
  · intro hn j h1 h2
    rw [computeScenario_breakEvenMonth, breakEven_eq] at hn
    rw [row_getD i b N j h1 h2]
    exact firstBreakEven_none i b N N hn j h1 h2

/-- C2 witness: with positive savings and zero investment, break-even is
captured at month 1 and that row's net position is positive. -/
theorem c2_witness :
    (computeScenario exBreakEven 1 none).breakEvenMonth = some 1 ∧
    (1 ≤ 1 ∧ 1 ≤ 1 ∧
      0 < ((computeScenario exBreakEven 1 none).monthlyBreakdowns.getD (1 - 1) default).netPosition ∧
      ∀ j, 1 ≤ j → j < 1 →
        ((computeScenario exBreakEven 1 none).monthlyBreakdowns.getD (j - 1) default).netPosition ≤ 0) := by
  have hbe : (computeScenario exBreakEven 1 none).breakEvenMonth = some 1 := by
    norm_num [computeScenario, stateAfter, stepMonth, initState, sqTotalOf, sqLaborOf,
      sqReworkOf, sqStateOf, proposedLaborOf, proposedReworkOf, newTotalAt, newLaborAt,
      newReworkAt, monthlySavingsAt, adoptionRateAt, effectiveAdoptionAt, linearAdoption,
      calcMonthlyCurrentLabor, calcMonthlyReworkCost, calcTotalMonthlyCurrent,
      calcNewMonthlyLabor, calcNewMonthlyRework, calcNewMonthlyTotal, calcUpfrontCost,
      calcRedeploymentCost, calcCumulativeInvestment, redeployChargeAt, WEEKS_PER_MONTH,
      exBreakEven, zeroInv, zeroFlags]
  exact ⟨hbe, (c2_breakEven_first exBreakEven 1 none).1 1 hbe⟩

-- ── C3: year1ROI ─────────────────────────────────────────────────────────

/-- engine.ts `year1ROI` expression, read off the definition. -/
lemma computeScenario_year1ROI (i : ScenarioInputs) (N : ℕ)
    (b : Option CurrentStateInputs) :
    (computeScenario i N b).year1ROI =
      match (stateAfter i b N N).rows[11]? with
      | some row =>
        if 0 < calcCumulativeInvestment i.investment (min 12 N) then
          row.netPosition / calcCumulativeInvestment i.investment (min 12 N) * 100
        else 0
      | none => 0 := rfl

/-- C3 counterexample: on a 6-month horizon with positive net position and
positive cumulative investment at month 6, the code returns `year1ROI = 0`,
not the month-6 ratio. -/
theorem c3_counterexample :
    (computeScenario exShortHorizon 6 none).year1ROI = 0 ∧
    0 < calcCumulativeInvestment exShortHorizon.investment 6 ∧
    ((computeScenario exShortHorizon 6 none).monthlyBreakdowns.getD 5 default).netPosition /
      calcCumulativeInvestment exShortHorizon.investment 6 * 100 ≠ 0 := by
  refine ⟨?_, ?_, ?_⟩ <;>
  norm_num [computeScenario, stateAfter, stepMonth, initState, sqTotalOf, sqLaborOf,
    sqReworkOf, sqStateOf, proposedLaborOf, proposedReworkOf, newTotalAt, newLaborAt,
    newReworkAt, monthlySavingsAt, adoptionRateAt, effectiveAdoptionAt, linearAdoption,
    calcMonthlyCurrentLabor, calcMonthlyReworkCost, calcTotalMonthlyCurrent,
    calcNewMonthlyLabor, calcNewMonthlyRework, calcNewMonthlyTotal, calcUpfrontCost,
    calcRedeploymentCost, calcCumulativeInvestment, redeployChargeAt, WEEKS_PER_MONTH,
    exShortHorizon, zeroInv, zeroFlags]

/-- C3 (amended): `year1ROI` is 0 on every horizon shorter than 12 months
(no month-12 row exists); on horizons of at least 12 months it equals the
month-12 `netPosition` over the month-12 cumulative investment times 100,
guarded to 0 when that denominator is not positive. -/
theorem c3_year1ROI (i : ScenarioInputs) (N : ℕ) (b : Option CurrentStateInputs) :
    (N < 12 → (computeScenario i N b).year1ROI = 0) ∧
    (12 ≤ N → (computeScenario i N b).year1ROI =
      (if 0 < calcCumulativeInvestment i.investment 12 then
        ((computeScenario i N b).monthlyBreakdowns.getD 11 default).netPosition /
          calcCumulativeInvestment i.investment 12 * 100
       else 0)) := by
  constructor
  · intro hN
    rw [computeScenario_year1ROI]
    have hnone : (stateAfter i b N N).rows[11]? = none :=
      List.getElem?_eq_none (by rw [rows_length]; omega)
    rw [hnone]
  · intro hN
    have hsome : (stateAfter i b N N).rows[11]? = some (rowAt i b N 12) := by
      rw [rows_eq, List.getElem?_map, List.getElem?_range (by omega : 11 < N)]
      rfl
    have hg : (computeScenario i N b).monthlyBreakdowns.getD 11 default =
        rowAt i b N 12 := by
      have h12 := row_getD i b N 12 (by omega) hN
      simpa using h12
    rw [computeScenario_year1ROI]
    simp only [hsome]
    rw [min_eq_left hN, hg]

/-- C3 witness: the amended theorem at the 6-month horizon counterexample
input — the short-horizon branch gives 0. -/
theorem c3_witness :
    6 < 12 ∧ (computeScenario exShortHorizon 6 none).year1ROI = 0 :=
  ⟨by omega, (c3_year1ROI exShortHorizon 6 none).1 (by omega)⟩

-- ── C4: redeployment charge guard ────────────────────────────────────────

/-- C4: the month loop adds one redeployment cost to the month's new-tool
cost stream exactly when `toolLifespanMonths > 0`, `month > 1` and
`(month − 1) mod toolLifespanMonths = 0`; with a zero lifespan the month's
increment is just `newTotal`. -/
theorem c4_redeployment_guard (i : ScenarioInputs) (b : Option CurrentStateInputs)
    (N m : ℕ) (h1 : 1 ≤ m) (h2 : m ≤ N) :
    ((stateAfter i b N m).cumulativeNewTool =
      (stateAfter i b N (m - 1)).cumulativeNewTool + newTotalAt i m +
        (if 0 < i.investment.toolLifespanMonths ∧ 1 < m ∧
            (m - 1) % i.investment.toolLifespanMonths = 0
         then calcRedeploymentCost i.investment else 0)) ∧
    (i.investment.toolLifespanMonths = 0 →
      (stateAfter i b N m).cumulativeNewTool =
        (stateAfter i b N (m - 1)).cumulativeNewTool + newTotalAt i m) := by
  obtain ⟨m0, rfl⟩ : ∃ m0, m = m0 + 1 := ⟨m - 1, by omega⟩
  constructor
  · simp only [stateAfter, stepMonth, Nat.add_sub_cancel]
    rw [redeployChargeAt]
    have hiff : (0 < i.investment.toolLifespanMonths ∧ 1 < m0 + 1 ∧
        (m0 + 1 - 1) % i.investment.toolLifespanMonths = 0 ∧ m0 + 1 ≤ N) ↔
        (0 < i.investment.toolLifespanMonths ∧ 1 < m0 + 1 ∧
          (m0 + 1 - 1) % i.investment.toolLifespanMonths = 0) := by
      constructor
      · rintro ⟨a, c, d, -⟩
        exact ⟨a, c, d⟩
      · rintro ⟨a, c, d⟩
        exact ⟨a, c, d, h2⟩
    rw [if_congr hiff rfl rfl]
    simp only [Nat.add_sub_cancel]
    ring
  · intro hL
    simp only [stateAfter, stepMonth, Nat.add_sub_cancel]
    rw [redeployChargeAt, if_neg (by simp [hL])]
    ring

/-- C4 witness: with a 12-month lifespan the theorem at month 13 of a
13-month horizon; the guard value is the 1500 redeployment cost at month
13 and 0 at month 1. -/
theorem c4_witness :
    1 ≤ 13 ∧ 13 ≤ 13 ∧
    ((stateAfter exRedeploy none 13 13).cumulativeNewTool =
      (stateAfter exRedeploy none 13 (13 - 1)).cumulativeNewTool +
        newTotalAt exRedeploy 13 +
        (if 0 < exRedeploy.investment.toolLifespanMonths ∧ 1 < 13 ∧
            (13 - 1) % exRedeploy.investment.toolLifespanMonths = 0
         then calcRedeploymentCost exRedeploy.investment else 0)) ∧
    (if 0 < exRedeploy.investment.toolLifespanMonths ∧ 1 < 13 ∧
        (13 - 1) % exRedeploy.investment.toolLifespanMonths = 0
     then calcRedeploymentCost exRedeploy.investment else 0) = 1500 ∧
    (if 0 < exRedeploy.investment.toolLifespanMonths ∧ 1 < 1 ∧
        (1 - 1) % exRedeploy.investment.toolLifespanMonths = 0
     then calcRedeploymentCost exRedeploy.investment else 0) = 0 := by
  refine ⟨by omega, by omega,
    (c4_redeployment_guard exRedeploy none 13 13 (by omega) (by omega)).1, ?_, ?_⟩
  · norm_num [exRedeploy, zeroInv, calcRedeploymentCost]
  · norm_num [exRedeploy, zeroInv, calcRedeploymentCost]

-- ── C7: monotonicity of the cumulative sequences ─────────────────────────

lemma linearAdoption_nonneg (month r : ℚ) (hm : 0 ≤ month) :
    0 ≤ linearAdoption month r := by
  rw [linearAdoption]
  split_ifs with h
  · norm_num
  · push_neg at h
    exact le_min (by norm_num) (div_nonneg hm h.le)

lemma monthlySavingsAt_nonneg (i : ScenarioInputs) (m : ℕ)
    (hrec : i.investment.monthlyRecurringCost = 0)
    (hw : 0 ≤ i.currentState.workers) (hhr : 0 ≤ i.currentState.hourlyRate)
    (hhw : 0 ≤ i.currentState.hoursPerWeek) (her : 0 ≤ i.currentState.errorRate)
    (hts : 0 ≤ i.efficiency.timeSavings) (herr : 0 ≤ i.efficiency.errorReduction)
    (hut : 0 ≤ i.efficiency.utilizationPercent)
    (har : 0 ≤ i.efficiency.additionalMonthlyRevenue) :
    0 ≤ monthlySavingsAt i none m := by
  have hpL : 0 ≤ proposedLaborOf i := by
    rw [proposedLaborOf, calcMonthlyCurrentLabor, WEEKS_PER_MONTH]
    have h433 : (0 : ℚ) ≤ 433 / 100 := by norm_num
    exact mul_nonneg (mul_nonneg (mul_nonneg hw hhr) hhw) h433
  have hpR : 0 ≤ proposedReworkOf i := by
    rw [proposedReworkOf, calcMonthlyReworkCost]
    exact mul_nonneg hpL her
  have heff : 0 ≤ effectiveAdoptionAt i m := by
    rw [effectiveAdoptionAt, adoptionRateAt]
    exact mul_nonneg (linearAdoption_nonneg _ _ (Nat.cast_nonneg m)) hut
  have hexp : monthlySavingsAt i none m =
      proposedLaborOf i * (i.efficiency.timeSavings * effectiveAdoptionAt i m) +
        proposedReworkOf i * (i.efficiency.errorReduction * effectiveAdoptionAt i m) -
        i.investment.monthlyRecurringCost + i.efficiency.additionalMonthlyRevenue := by
    simp only [monthlySavingsAt, sqTotalOf, sqLaborOf, sqReworkOf, sqStateOf,
      Option.getD_none, newTotalAt, newLaborAt, newReworkAt, calcNewMonthlyTotal,
      calcNewMonthlyLabor, calcNewMonthlyRework, calcTotalMonthlyCurrent,
      proposedLaborOf, proposedReworkOf, calcMonthlyReworkCost,
      calcMonthlyCurrentLabor]
    ring
  have t1 : 0 ≤ proposedLaborOf i * (i.efficiency.timeSavings * effectiveAdoptionAt i m) :=
    mul_nonneg hpL (mul_nonneg hts heff)
  have t2 : 0 ≤ proposedReworkOf i * (i.efficiency.errorReduction * effectiveAdoptionAt i m) :=
    mul_nonneg hpR (mul_nonneg herr heff)
  rw [hexp, hrec]
  linarith

lemma calcCumulativeInvestment_mono (inv : InvestmentInputs)
    (ha : 0 ≤ inv.assemblyCost) (hd : 0 ≤ inv.designCost) (hc : 0 ≤ inv.controlsCost)
    (hr : 0 ≤ inv.monthlyRecurringCost) (hdep : 0 ≤ inv.deploymentCost) :
    Monotone (fun m => calcCumulativeInvestment inv m) := by
  have hR : 0 ≤ calcRedeploymentCost inv := by
    rw [calcRedeploymentCost]
    linarith
  apply monotone_nat_of_le_succ
  intro n
  show calcCumulativeInvestment inv n ≤ calcCumulativeInvestment inv (n + 1)
  rw [calcCumulativeInvestment_eq, calcCumulativeInvestment_eq]
  have h1 : inv.monthlyRecurringCost * (n : ℚ) ≤
      inv.monthlyRecurringCost * ((n + 1 : ℕ) : ℚ) := by
    apply mul_le_mul_of_nonneg_left _ hr
    push_cast
    linarith
  by_cases hL : 0 < inv.toolLifespanMonths
  · simp only [if_pos hL]
    have h2 : ((n / inv.toolLifespanMonths : ℕ) : ℚ) ≤
        (((n + 1) / inv.toolLifespanMonths : ℕ) : ℚ) :=
      Nat.cast_le.mpr (Nat.div_le_div_right (by omega))
    have h3 := mul_le_mul_of_nonneg_left h2 hR
    linarith
  · simp only [if_neg hL]
    linarith

/-- C7 (amended): with all investment cost fields non-negative, the row
sequence of `cumulativeInvestment` is non-decreasing; the row sequence of
`cumulativeSavings` is non-decreasing when additionally no baseline
override is supplied, `monthlyRecurringCost = 0`, and the status-quo and
efficiency fields are non-negative. (With a positive recurring cost,
`cumulativeSavings` can decrease — see the counterexample.) -/
theorem c7_monotone (i : ScenarioInputs) (b : Option CurrentStateInputs) (N : ℕ)
    (ha : 0 ≤ i.investment.assemblyCost) (hd : 0 ≤ i.investment.designCost)
    (hc : 0 ≤ i.investment.controlsCost) (hr : 0 ≤ i.investment.monthlyRecurringCost)
    (hdep : 0 ≤ i.investment.deploymentCost) :
    (∀ j k, 1 ≤ j → j ≤ k → k ≤ N →
      ((computeScenario i N b).monthlyBreakdowns.getD (j - 1) default).cumulativeInvestment ≤
        ((computeScenario i N b).monthlyBreakdowns.getD (k - 1) default).cumulativeInvestment) ∧
    (b = none → i.investment.monthlyRecurringCost = 0 →
      0 ≤ i.currentState.workers → 0 ≤ i.currentState.hourlyRate →
      0 ≤ i.currentState.hoursPerWeek → 0 ≤ i.currentState.errorRate →
      0 ≤ i.efficiency.timeSavings → 0 ≤ i.efficiency.errorReduction →
      0 ≤ i.efficiency.utilizationPercent → 0 ≤ i.efficiency.additionalMonthlyRevenue →
      ∀ j k, 1 ≤ j → j ≤ k → k ≤ N →
        ((computeScenario i N b).monthlyBreakdowns.getD (j - 1) default).cumulativeSavings ≤
          ((computeScenario i N b).monthlyBreakdowns.getD (k - 1) default).cumulativeSavings) := by
  constructor
  · intro j k hj hjk hkN
    rw [row_getD i b N j hj (by omega), row_getD i b N k (by omega) hkN]
    show calcCumulativeInvestment i.investment j ≤ calcCumulativeInvestment i.investment k
    exact calcCumulativeInvestment_mono i.investment ha hd hc hr hdep hjk
  · rintro rfl hrec hw hhr hhw her hts herr hut har j k hj hjk hkN
    rw [row_getD i none N j hj (by omega), row_getD i none N k (by omega) hkN]
    show (stateAfter i none N j).cumulativeSavings ≤
      (stateAfter i none N k).cumulativeSavings
    have hmono : Monotone (fun m => (stateAfter i none N m).cumulativeSavings) := by
      apply monotone_nat_of_le_succ
      intro n
      have hstep : (stateAfter i none N (n + 1)).cumulativeSavings =
          (stateAfter i none N n).cumulativeSavings + monthlySavingsAt i none (n + 1) := rfl
      have hnn := monthlySavingsAt_nonneg i (n + 1) hrec hw hhr hhw her hts herr hut har
      show (stateAfter i none N n).cumulativeSavings ≤
        (stateAfter i none N (n + 1)).cumulativeSavings
      rw [hstep]
      linarith
    exact hmono hjk

/-- C7 counterexample: with a monthly recurring cost of 1 and every other
numeric field 0 (all non-negative), `cumulativeSavings` strictly decreases
from month 1 to month 2. -/
theorem c7_counterexample :
    0 ≤ exRecurring.investment.assemblyCost ∧
    0 ≤ exRecurring.investment.designCost ∧
    0 ≤ exRecurring.investment.controlsCost ∧
    0 ≤ exRecurring.investment.monthlyRecurringCost ∧
    0 ≤ exRecurring.investment.trainingCost ∧
    0 ≤ exRecurring.investment.deploymentCost ∧
    0 ≤ exRecurring.currentState.workers ∧
    0 ≤ exRecurring.currentState.hourlyRate ∧
    0 ≤ exRecurring.currentState.hoursPerWeek ∧
    0 ≤ exRecurring.currentState.errorRate ∧
    0 ≤ exRecurring.currentState.monthlyOperationalCosts ∧
    0 ≤ exRecurring.efficiency.timeSavings ∧
    0 ≤ exRecurring.efficiency.errorReduction ∧
    0 ≤ exRecurring.efficiency.utilizationPercent ∧
    0 ≤ exRecurring.efficiency.additionalMonthlyRevenue ∧
    ((computeScenario exRecurring 2 none).monthlyBreakdowns.getD 1 default).cumulativeSavings <
      ((computeScenario exRecurring 2 none).monthlyBreakdowns.getD 0 default).cumulativeSavings := by
  norm_num [computeScenario, stateAfter, stepMonth, initState, sqTotalOf, sqLaborOf,
    sqReworkOf, sqStateOf, proposedLaborOf, proposedReworkOf, newTotalAt, newLaborAt,
    newReworkAt, monthlySavingsAt, adoptionRateAt, effectiveAdoptionAt, linearAdoption,
    calcMonthlyCurrentLabor, calcMonthlyReworkCost, calcTotalMonthlyCurrent,
    calcNewMonthlyLabor, calcNewMonthlyRework, calcNewMonthlyTotal, calcUpfrontCost,
    calcRedeploymentCost, calcCumulativeInvestment, redeployChargeAt, WEEKS_PER_MONTH,
    exRecurring, zeroInv, zeroState, zeroEff, zeroFlags]

/-- C7 witness: the amended theorem on `exBreakEven` (zero investment) over
a 2-month horizon, months 1 to 2, for both sequences. -/
theorem c7_witness :
    (0 ≤ exBreakEven.investment.assemblyCost ∧
      0 ≤ exBreakEven.investment.designCost ∧
      0 ≤ exBreakEven.investment.controlsCost ∧
      0 ≤ exBreakEven.investment.monthlyRecurringCost ∧
      0 ≤ exBreakEven.investment.deploymentCost) ∧
    ((computeScenario exBreakEven 2 none).monthlyBreakdowns.getD (1 - 1) default).cumulativeInvestment ≤
      ((computeScenario exBreakEven 2 none).monthlyBreakdowns.getD (2 - 1) default).cumulativeInvestment ∧
    ((computeScenario exBreakEven 2 none).monthlyBreakdowns.getD (1 - 1) default).cumulativeSavings ≤
      ((computeScenario exBreakEven 2 none).monthlyBreakdowns.getD (2 - 1) default).cumulativeSavings := by
  have hz : (0 : ℚ) ≤ 0 := le_rfl
  have hfields : (0 : ℚ) ≤ exBreakEven.investment.assemblyCost ∧
      (0 : ℚ) ≤ exBreakEven.investment.designCost ∧
      (0 : ℚ) ≤ exBreakEven.investment.controlsCost ∧
      (0 : ℚ) ≤ exBreakEven.investment.monthlyRecurringCost ∧
      (0 : ℚ) ≤ exBreakEven.investment.deploymentCost := by
    norm_num [exBreakEven, zeroInv]
  obtain ⟨f1, f2, f3, f4, f5⟩ := hfields
  refine ⟨⟨f1, f2, f3, f4, f5⟩, ?_, ?_⟩
  · exact (c7_monotone exBreakEven none 2 f1 f2 f3 f4 f5).1 1 2 (by omega) (by omega)
      (by omega)
  · exact (c7_monotone exBreakEven none 2 f1 f2 f3 f4 f5).2 rfl
      (by norm_num [exBreakEven, zeroInv]) (by norm_num [exBreakEven])
      (by norm_num [exBreakEven]) (by norm_num [exBreakEven])
      (by norm_num [exBreakEven]) (by norm_num [exBreakEven])
      (by norm_num [exBreakEven]) (by norm_num [exBreakEven])
      (by norm_num [exBreakEven]) 1 2 (by omega) (by omega) (by omega)

-- ── C10: reported redeployments vs loop charges ──────────────────────────

/-- C10: with `toolLifespanMonths = L > 0`, the row `cumulativeInvestment`
reported for month `m` contains exactly `⌊m/L⌋` redeployment costs, while
the loop's cost stream (`cumulativeNewTool`) contains only `⌊(m−1)/L⌋`
charges by month `m`; at every month divisible by `L` these counts differ
by exactly one. -/
theorem c10_reported_vs_charged (i : ScenarioInputs) (b : Option CurrentStateInputs)
    (N m : ℕ) (hL : 0 < i.investment.toolLifespanMonths) (h1 : 1 ≤ m) (h2 : m ≤ N) :
    ((computeScenario i N b).monthlyBreakdowns.getD (m - 1) default).cumulativeInvestment =
      seedOf i.investment + i.investment.monthlyRecurringCost * (m : ℚ) +
        calcRedeploymentCost i.investment *
          ((m / i.investment.toolLifespanMonths : ℕ) : ℚ) ∧
    ((computeScenario i N b).monthlyBreakdowns.getD (m - 1) default).cumulativeNewTool =
      seedOf i.investment + sumNewTotalAt i m +
        calcRedeploymentCost i.investment *
          (((m - 1) / i.investment.toolLifespanMonths : ℕ) : ℚ) ∧
    (i.investment.toolLifespanMonths ∣ m →
      m / i.investment.toolLifespanMonths =
        (m - 1) / i.investment.toolLifespanMonths + 1) := by
  refine ⟨?_, ?_, ?_⟩
  · rw [row_getD i b N m h1 h2]
    show calcCumulativeInvestment i.investment m = _
    rw [calcCumulativeInvestment_eq, if_pos hL]
  · rw [row_getD i b N m h1 h2]
    show (stateAfter i b N m).cumulativeNewTool = _
    rw [cumNT_eq, chargeSumAt_eq i.investment N hL m h2]
    ring
  · intro hdvd
    rw [div_pred_succ i.investment.toolLifespanMonths m,
      if_pos ⟨h1, Nat.mod_eq_zero_of_dvd hdvd⟩]

/-- C10 witness: `exRedeploy` (12-month lifespan) at month 12 of a
13-month horizon, where 12 divides the month. -/
theorem c10_witness :
    0 < exRedeploy.investment.toolLifespanMonths ∧ 1 ≤ 12 ∧ 12 ≤ 13 ∧
    (((computeScenario exRedeploy 13 none).monthlyBreakdowns.getD (12 - 1) default).cumulativeInvestment =
      seedOf exRedeploy.investment + exRedeploy.investment.monthlyRecurringCost * ((12 : ℕ) : ℚ) +
        calcRedeploymentCost exRedeploy.investment *
          ((12 / exRedeploy.investment.toolLifespanMonths : ℕ) : ℚ) ∧
    ((computeScenario exRedeploy 13 none).monthlyBreakdowns.getD (12 - 1) default).cumulativeNewTool =
      seedOf exRedeploy.investment + sumNewTotalAt exRedeploy 12 +
        calcRedeploymentCost exRedeploy.investment *
          (((12 - 1) / exRedeploy.investment.toolLifespanMonths : ℕ) : ℚ) ∧
    (exRedeploy.investment.toolLifespanMonths ∣ 12 →
      12 / exRedeploy.investment.toolLifespanMonths =
        (12 - 1) / exRedeploy.investment.toolLifespanMonths + 1)) := by
  have hL : 0 < exRedeploy.investment.toolLifespanMonths := by decide
  exact ⟨hL, by omega, by omega,
    c10_reported_vs_charged exRedeploy none 13 12 hL (by omega) (by omega)⟩

-- ── C9: costLocked masks only substituted text ───────────────────────────

/-- C9: for any formatters, scenario, horizon and baseline, the formula
lists produced with `costLocked = true` and `costLocked = false` have the
same length and agree on `id`, `label`, `formula` and `result` entrywise;
a `substituted` field can differ only on the one-time-investment and
redeployment cards. -/
theorem c9_costLocked_masking (fc fp : ℚ → String) (i : ScenarioInputs) (N : ℕ)
    (b : Option CurrentStateInputs) :
    (getFormulaDisplays fc fp i N b true).length =
      (getFormulaDisplays fc fp i N b false).length ∧
    List.Forall₂ formulaAgrees (getFormulaDisplays fc fp i N b true)
      (getFormulaDisplays fc fp i N b false) := by
  have h : List.Forall₂ formulaAgrees (getFormulaDisplays fc fp i N b true)
      (getFormulaDisplays fc fp i N b false) := by
    rcases b with - | s <;>
      by_cases hL : 0 < i.investment.toolLifespanMonths <;>
        simp [getFormulaDisplays, formulaAgrees, hL]
  exact ⟨h.length_eq, h⟩

/-- C9 witness: the theorem at constant formatters on `exRedeploy` over a
24-month horizon (the redeployment card is present). -/
theorem c9_witness :
    (getFormulaDisplays (fun _ => "$") (fun _ => "%") exRedeploy 24 none true).length =
      (getFormulaDisplays (fun _ => "$") (fun _ => "%") exRedeploy 24 none false).length ∧
    List.Forall₂ formulaAgrees
      (getFormulaDisplays (fun _ => "$") (fun _ => "%") exRedeploy 24 none true)
      (getFormulaDisplays (fun _ => "$") (fun _ => "%") exRedeploy 24 none false) :=
  c9_costLocked_masking (fun _ => "$") (fun _ => "%") exRedeploy 24 none

-- ── C5/C6: portfolio rescaler ────────────────────────────────────────────

lemma uComputeScenario_monthlyBreakdowns (s : UnitModel.ScenarioInputs) (N : ℕ) :
    (UnitModel.computeScenario s N).monthlyBreakdowns =
      (UnitModel.stateAfter s N N).rows := rfl

lemma uComputeScenario_totalInvestment (s : UnitModel.ScenarioInputs) (N : ℕ) :
    (UnitModel.computeScenario s N).totalInvestment =
      (UnitModel.stateAfter s N N).cumulativeInvestment := rfl

lemma uGetLast_cumInv (s : UnitModel.ScenarioInputs) (N m : ℕ) (h : 1 ≤ m) :
    ((UnitModel.stateAfter s N m).rows.getLast?).elim 0
        (fun r => r.cumulativeInvestment) =
      (UnitModel.stateAfter s N m).cumulativeInvestment := by
  obtain ⟨m0, rfl⟩ : ∃ m0, m = m0 + 1 := ⟨m - 1, by omega⟩
  show ((UnitModel.stepMonth s N (m0 + 1)
      (UnitModel.stateAfter s N m0)).rows.getLast?).elim 0
      (fun r => r.cumulativeInvestment) =
    (UnitModel.stepMonth s N (m0 + 1) (UnitModel.stateAfter s N m0)).cumulativeInvestment
  simp only [UnitModel.stepMonth]
  rw [List.getLast?_concat]
  rfl

lemma uOvertimePremium_of_not (f : String → String → ℕ)
    (e : UnitModel.PortfolioEntry)
    (h : (UnitModel.portfolioEntryResult f e).hasOvertime = false) :
    (UnitModel.portfolioEntryResult f e).overtimePremium = 1 := by
  revert h
  simp only [UnitModel.portfolioEntryResult]
  split_ifs <;> simp

/-- C5 (amended): the rescaler's scale factor is
`actualUnits / max(1, referenceUnits)` times the overtime premium (1 when
no overtime applies); scaled savings are the re-simulation's final
cumulative savings times the scale factor; the scaled investment is the
re-simulation's total (final cumulative) investment, not multiplied by the
scale factor; scaled value is their difference; and an entry with
`actualUnits = referenceUnits ≥ 1` and no overtime has scale factor 1
(for `referenceUnits < 1` the floor in the denominator breaks this — see
the counterexample). -/
theorem c5_rescaler (f : String → String → ℕ) (entry : UnitModel.PortfolioEntry) :
    (UnitModel.portfolioEntryResult f entry).scaleFactor =
      entry.actualUnits / max 1 entry.baselineSavings.referenceUnits *
        (UnitModel.portfolioEntryResult f entry).overtimePremium ∧
    ((UnitModel.portfolioEntryResult f entry).hasOvertime = false →
      (UnitModel.portfolioEntryResult f entry).overtimePremium = 1) ∧
    (UnitModel.portfolioEntryResult f entry).scaledTotalSavings =
      (((UnitModel.portfolioEntryResult f entry).results.monthlyBreakdowns.getLast?).elim 0
          (fun r => r.cumulativeSavings)) *
        (UnitModel.portfolioEntryResult f entry).scaleFactor ∧
    (UnitModel.portfolioEntryResult f entry).scaledTotalInvestment =
      (UnitModel.portfolioEntryResult f entry).results.totalInvestment ∧
    (1 ≤ entry.analysisPeriod →
      (UnitModel.portfolioEntryResult f entry).results.totalInvestment =
        (((UnitModel.portfolioEntryResult f entry).results.monthlyBreakdowns.getLast?).elim 0
          (fun r => r.cumulativeInvestment))) ∧
    (UnitModel.portfolioEntryResult f entry).scaledTotalValue =
      (UnitModel.portfolioEntryResult f entry).scaledTotalSavings -
        (UnitModel.portfolioEntryResult f entry).scaledTotalInvestment ∧
    (entry.actualUnits = entry.baselineSavings.referenceUnits →
      1 ≤ entry.baselineSavings.referenceUnits →
      (UnitModel.portfolioEntryResult f entry).hasOvertime = false →
      (UnitModel.portfolioEntryResult f entry).scaleFactor = 1) := by
  refine ⟨rfl, uOvertimePremium_of_not f entry, rfl, rfl, ?_, rfl, ?_⟩
  · intro h
    exact (uGetLast_cumInv
      { entry.scenario with investment := UnitModel.modifiedInvestment entry }
      entry.analysisPeriod entry.analysisPeriod h).symm
  · intro hau hge hno
    have h1 : (UnitModel.portfolioEntryResult f entry).scaleFactor =
        entry.actualUnits / max 1 entry.baselineSavings.referenceUnits *
          (UnitModel.portfolioEntryResult f entry).overtimePremium := rfl
    have hne : entry.baselineSavings.referenceUnits ≠ 0 :=
      ne_of_gt (lt_of_lt_of_le zero_lt_one hge)
    rw [h1, uOvertimePremium_of_not f entry hno, mul_one, hau, max_eq_right hge,
      div_self hne]

/-- C5 counterexample: an entry with `actualUnits = referenceUnits = 0`
and no overtime has scale factor 0, not 1. -/
theorem c5_counterexample :
    exEntryZeroUnits.actualUnits = exEntryZeroUnits.baselineSavings.referenceUnits ∧
    (UnitModel.portfolioEntryResult exMonthsBetween exEntryZeroUnits).hasOvertime = false ∧
    (UnitModel.portfolioEntryResult exMonthsBetween exEntryZeroUnits).scaleFactor ≠ 1 := by
  refine ⟨rfl, ?_, ?_⟩
  · norm_num [UnitModel.portfolioEntryResult, exEntryZeroUnits, exUnitScenario,
      exSavingsZeroUnits, exMonthsBetween]
  · norm_num [UnitModel.portfolioEntryResult, exEntryZeroUnits, exUnitScenario,
      exSavingsZeroUnits, exMonthsBetween]

/-- C5 witness: the rescaler equations and the unit scale factor on
`exEntryThreeTools` (`actualUnits = referenceUnits = 10`, direct mode). -/
theorem c5_witness :
    (UnitModel.portfolioEntryResult exMonthsBetween exEntryThreeTools).hasOvertime = false ∧
    1 ≤ exEntryThreeTools.analysisPeriod ∧
    exEntryThreeTools.actualUnits = exEntryThreeTools.baselineSavings.referenceUnits ∧
    1 ≤ exEntryThreeTools.baselineSavings.referenceUnits ∧
    (UnitModel.portfolioEntryResult exMonthsBetween exEntryThreeTools).scaleFactor = 1 ∧
    (UnitModel.portfolioEntryResult exMonthsBetween exEntryThreeTools).results.totalInvestment =
      (((UnitModel.portfolioEntryResult exMonthsBetween exEntryThreeTools).results.monthlyBreakdowns.getLast?).elim 0
        (fun r => r.cumulativeInvestment)) := by
  have hno : (UnitModel.portfolioEntryResult exMonthsBetween exEntryThreeTools).hasOvertime = false := by
    norm_num [UnitModel.portfolioEntryResult, exEntryThreeTools, exUnitScenario,
      exSavingsZeroUnits, exMonthsBetween]
  have h := c5_rescaler exMonthsBetween exEntryThreeTools
  refine ⟨hno, by norm_num [exEntryThreeTools], rfl,
    by norm_num [exEntryThreeTools, exSavingsZeroUnits], ?_, ?_⟩
  · exact h.2.2.2.2.2.2 rfl (by norm_num [exEntryThreeTools, exSavingsZeroUnits]) hno
  · exact h.2.2.2.2.1 (by norm_num [exEntryThreeTools])

/-- C6: the investment block passed to the re-simulation zeroes design and
controls under `excludeDesignControls`, zeroes training under
`excludeTraining`, multiplies assembly, training, deployment and monthly
recurring by `toolCount`, and never multiplies design or controls. -/
theorem c6_modified_investment (f : String → String → ℕ)
    (entry : UnitModel.PortfolioEntry) :
    (UnitModel.modifiedInvestment entry).assemblyCost =
      entry.scenario.investment.assemblyCost * entry.toolCount ∧
    (UnitModel.modifiedInvestment entry).designCost =
      (if entry.excludeDesignControls then 0 else entry.scenario.investment.designCost) ∧
    (UnitModel.modifiedInvestment entry).controlsCost =
      (if entry.excludeDesignControls then 0 else entry.scenario.investment.controlsCost) ∧
    (UnitModel.modifiedInvestment entry).trainingCost =
      (if entry.excludeTraining then 0 else entry.scenario.investment.trainingCost) *
        entry.toolCount ∧
    (UnitModel.modifiedInvestment entry).deploymentCost =
      entry.scenario.investment.deploymentCost * entry.toolCount ∧
    (UnitModel.modifiedInvestment entry).monthlyRecurringCost =
      entry.scenario.investment.monthlyRecurringCost * entry.toolCount ∧
    (UnitModel.modifiedInvestment entry).toolLifespanMonths =
      entry.scenario.investment.toolLifespanMonths ∧
    (UnitModel.portfolioEntryResult f entry).results =
      UnitModel.computeScenario
        { entry.scenario with investment := UnitModel.modifiedInvestment entry }
        entry.analysisPeriod := by
  refine ⟨?_, ?_, ?_, ?_, ?_, ?_, ?_, rfl⟩ <;>
    rcases hdc : entry.excludeDesignControls <;>
      rcases ht : entry.excludeTraining <;>
        simp [UnitModel.modifiedInvestment, hdc, ht]

/-- C6 witness: `exEntryThreeTools` (`toolCount = 3`, `excludeTraining`)
has zero training, tripled assembly/deployment/recurring, and design and
controls at their original values. -/
theorem c6_witness :
    (UnitModel.modifiedInvestment exEntryThreeTools).assemblyCost = 300 ∧
    (UnitModel.modifiedInvestment exEntryThreeTools).trainingCost = 0 ∧
    (UnitModel.modifiedInvestment exEntryThreeTools).deploymentCost = 180 ∧
    (UnitModel.modifiedInvestment exEntryThreeTools).monthlyRecurringCost = 120 ∧
    (UnitModel.modifiedInvestment exEntryThreeTools).designCost = 200 ∧
    (UnitModel.modifiedInvestment exEntryThreeTools).controlsCost = 300 := by
  obtain ⟨h1, h2, h3, h4, h5, h6, h7, h8⟩ :=
    c6_modified_investment exMonthsBetween exEntryThreeTools
  refine ⟨?_, ?_, ?_, ?_, ?_, ?_⟩
  · rw [h1]
    norm_num [exEntryThreeTools, exUnitScenario]
  · rw [h4]
    norm_num [exEntryThreeTools, exUnitScenario]
  · rw [h5]
    norm_num [exEntryThreeTools, exUnitScenario]
  · rw [h6]
    norm_num [exEntryThreeTools, exUnitScenario]
  · rw [h2]
    norm_num [exEntryThreeTools, exUnitScenario]
  · rw [h3]
    norm_num [exEntryThreeTools, exUnitScenario]
